import Mathlib

/-!
Verification of the Yew WebSocket chat client
(`src/yew_websockets_chat/src/lib.rs`).

The development shallowly embeds the client's data model and the
`App::update` event handler, the background read-loop task spawned by
`Msg::SetWsRead`, and the JSON codec used on the wire
(`serde_json::to_string` / `serde_json::from_str` for `ChatMessage`),
and proves the specification's claims about them.
-/

namespace WebChat

/-- The wire message value type (`ChatMessage` in `lib.rs`, lines 4-9):
`username: String`, `text: String`, `timestamp: Option<String>`. -/
structure ChatMessage where
  username : String
  text : String
  timestamp : Option String
deriving Repr, DecidableEq

/-! ## JSON codec

The repository serializes `ChatMessage` with `serde_json::to_string`
(line 150) and deserializes with `serde_json::from_str::<ChatMessage>`
(line 93).  `serde_json` is an external library, so the codec below models
its documented behaviour for this concrete derived struct: compact output
with the fields in declaration order, standard JSON string escaping
(`"` and `\` escaped, control characters as `\b \t \n \f \r` or `\u00XX`),
and a deserializer that requires a single top-level object consuming the
whole input, with `username` and `text` required string fields, `timestamp`
an optional string-or-null field, duplicate known fields rejected and
unknown fields ignored.  (The model's deserializer only skips unknown
fields whose values are flat tokens — strings, `null`, booleans, numbers —
which is the only divergence from `serde_json`, and one no claim touches.) -/

/-- Left brace character (kept out of string literals). -/
def lbrace : Char := Char.ofNat 123

/-- Right brace character (kept out of string literals). -/
def rbrace : Char := Char.ofNat 125

/-- Lower-case hexadecimal digit for `n < 16`, as `serde_json` prints in
`\u00XX` escapes. -/
def hexDigit (n : Nat) : Char :=
  if n < 10 then Char.ofNat (48 + n) else Char.ofNat (87 + n)

/-- JSON escaping of a single character, following `serde_json`'s string
serializer: `"` and `\` get a backslash escape, the five short control
escapes are used where they exist, remaining control characters become
`\u00XX`, and everything else is emitted verbatim. -/
def escapeChar (c : Char) : List Char :=
  if c = '"' then ['\\', '"']
  else if c = '\\' then ['\\', '\\']
  else if c.toNat = 8 then ['\\', 'b']
  else if c.toNat = 9 then ['\\', 't']
  else if c.toNat = 10 then ['\\', 'n']
  else if c.toNat = 12 then ['\\', 'f']
  else if c.toNat = 13 then ['\\', 'r']
  else if c.toNat < 32 then
    ['\\', 'u', '0', '0', hexDigit (c.toNat / 16), hexDigit (c.toNat % 16)]
  else [c]

/-- A JSON string literal: opening quote, escaped characters, closing
quote. -/
def jquote (s : String) : List Char :=
  '"' :: (s.data.map escapeChar).flatten ++ ['"']

/-- `serde_json::to_string` on a `ChatMessage`: the compact object with the
three fields in declaration order, `timestamp: None` printed as `null`. -/
def encodeChatList (m : ChatMessage) : List Char :=
  lbrace :: jquote "username" ++ ':' :: jquote m.username
    ++ ',' :: jquote "text" ++ ':' :: jquote m.text
    ++ ',' :: jquote "timestamp" ++ ':'
    :: (match m.timestamp with
        | none => ['n', 'u', 'l', 'l']
        | some t => jquote t)
    ++ [rbrace]

/-- String-valued encoder (`serde_json::to_string`). -/
def encodeChatString (m : ChatMessage) : String :=
  String.mk (encodeChatList m)

/-- Value of a hexadecimal digit character, if it is one. -/
def parseHex (c : Char) : Option Nat :=
  if 48 ≤ c.toNat ∧ c.toNat ≤ 57 then some (c.toNat - 48)
  else if 97 ≤ c.toNat ∧ c.toNat ≤ 102 then some (c.toNat - 87)
  else if 65 ≤ c.toNat ∧ c.toNat ≤ 70 then some (c.toNat - 55)
  else none

/-- JSON insignificant whitespace. -/
def isWs (c : Char) : Bool :=
  c = ' ' || c = '\t' || c = '\n' || c = '\r'

/-- Skip insignificant whitespace. -/
def skipWs (l : List Char) : List Char :=
  l.dropWhile isWs

/-- Parse the body of a JSON string (the opening quote already consumed),
accumulating decoded characters in `acc`; returns the string and the
remaining input.  Unescaped control characters are rejected, `\uXXXX`
escapes are accepted for scalar values (the model does not combine
surrogate pairs; no claim depends on inputs containing them). -/
def parseStringBody : List Char → List Char → Option (String × List Char)
  | [], _ => none
  | c :: rest, acc =>
    if c = '"' then some (String.mk acc, rest)
    else if c = '\\' then
      match rest with
      | [] => none
      | e :: rest2 =>
        if e = '"' then parseStringBody rest2 (acc ++ ['"'])
        else if e = '\\' then parseStringBody rest2 (acc ++ ['\\'])
        else if e = '/' then parseStringBody rest2 (acc ++ ['/'])
        else if e = 'b' then parseStringBody rest2 (acc ++ [Char.ofNat 8])
        else if e = 't' then parseStringBody rest2 (acc ++ ['\t'])
        else if e = 'n' then parseStringBody rest2 (acc ++ ['\n'])
        else if e = 'f' then parseStringBody rest2 (acc ++ [Char.ofNat 12])
        else if e = 'r' then parseStringBody rest2 (acc ++ ['\r'])
        else if e = 'u' then
          match rest2 with
          | h1 :: h2 :: h3 :: h4 :: rest3 =>
            match parseHex h1, parseHex h2, parseHex h3, parseHex h4 with
            | some n1, some n2, some n3, some n4 =>
              let n := 4096 * n1 + 256 * n2 + 16 * n3 + n4
              if n < 55296 then parseStringBody rest3 (acc ++ [Char.ofNat n])
              else none
            | _, _, _, _ => none
          | _ => none
        else none
    else if c.toNat < 32 then none
    else parseStringBody rest (acc ++ [c])

/-- Flat JSON values, as far as the deserializer model distinguishes
them (the content of a number is irrelevant to `ChatMessage` decoding). -/
inductive JVal where
  | vstr (s : String)
  | vnull
  | vbool (b : Bool)
  | vnum
deriving Repr, DecidableEq

/-- Characters that may continue a JSON number literal. -/
def isNumChar (c : Char) : Bool :=
  c.isDigit || c = '-' || c = '+' || c = '.' || c = 'e' || c = 'E'

/-- Parse one flat JSON value. -/
def parseValue (l : List Char) : Option (JVal × List Char) :=
  match skipWs l with
  | [] => none
  | c :: r =>
    if c = '"' then
      (parseStringBody r []).map (fun p => (JVal.vstr p.1, p.2))
    else if c = 'n' then
      match r with
      | 'u' :: 'l' :: 'l' :: r2 => some (JVal.vnull, r2)
      | _ => none
    else if c = 't' then
      match r with
      | 'r' :: 'u' :: 'e' :: r2 => some (JVal.vbool true, r2)
      | _ => none
    else if c = 'f' then
      match r with
      | 'a' :: 'l' :: 's' :: 'e' :: r2 => some (JVal.vbool false, r2)
      | _ => none
    else if c.isDigit || c = '-' then some (JVal.vnum, r.dropWhile isNumChar)
    else none

/-- Record one parsed object member into the partially-filled field set
`(username?, text?, timestamp-seen, timestamp-value)`, mirroring the
derived `Deserialize` visitor: a type mismatch or a duplicate known field
is an error, an unknown field is ignored. -/
def applyField (key : String) (v : JVal) :
    Option String → Option String → Bool → Option String →
    Option (Option String × Option String × Bool × Option String)
  | un, tx, tsS, tsV =>
    if key = "username" then
      match un, v with
      | none, JVal.vstr s => some (some s, tx, tsS, tsV)
      | _, _ => none
    else if key = "text" then
      match tx, v with
      | none, JVal.vstr s => some (un, some s, tsS, tsV)
      | _, _ => none
    else if key = "timestamp" then
      if tsS then none
      else
        match v with
        | JVal.vstr s => some (un, tx, true, some s)
        | JVal.vnull => some (un, tx, true, none)
        | _ => none
    else some (un, tx, tsS, tsV)

/-- Parse the members of the top-level object (the opening brace already
consumed) and assemble the `ChatMessage`; `fuel` bounds the number of
members (one unit is consumed per member, so any fuel exceeding the input
length is enough). -/
def parseMembers : Nat → List Char → Option String → Option String →
    Bool → Option String → Option (ChatMessage × List Char)
  | 0, _, _, _, _, _ => none
  | fuel + 1, l, un, tx, tsS, tsV =>
    match skipWs l with
    | [] => none
    | c :: r =>
      if c = '"' then
        match parseStringBody r [] with
        | none => none
        | some (key, r2) =>
          match skipWs r2 with
          | ':' :: r3 =>
            match parseValue r3 with
            | none => none
            | some (v, r4) =>
              match applyField key v un tx tsS tsV with
              | none => none
              | some (un2, tx2, tsS2, tsV2) =>
                match skipWs r4 with
                | ',' :: r5 => parseMembers fuel r5 un2 tx2 tsS2 tsV2
                | d :: r5 =>
                  if d = rbrace then
                    match un2, tx2 with
                    | some u, some t => some (⟨u, t, tsV2⟩, r5)
                    | _, _ => none
                  else none
                | [] => none
          | _ => none
      else none

/-- `serde_json::from_str::<ChatMessage>` on a character list: a single
top-level object with nothing but whitespace after it. -/
def decodeChatList (l : List Char) : Option ChatMessage :=
  match skipWs l with
  | [] => none
  | c :: r =>
    if c = lbrace then
      match parseMembers (r.length + 1) r none none false none with
      | some (m, rest) => if skipWs rest = [] then some m else none
      | none => none
    else none

/-- `serde_json::from_str::<ChatMessage>` (line 93). -/
def decodeChatString (s : String) : Option ChatMessage :=
  decodeChatList s.data

/-! ## Client state and the event handler -/

/-- The component state (`struct App`, lines 33-41).  The write half of
the socket (`SplitSink<WebSocket, WsMessage>`) carries no observable data
in the model, only its presence matters, so it is represented by `Unit`. -/
structure App where
  username : String
  username_input : String
  ws_write : Option Unit
  messages : List ChatMessage
  current_input : String
  error : Option String
  is_connected : Bool
deriving Repr, DecidableEq

/-- The component's message type (`enum Msg`, lines 19-31).  The read half
payload is likewise presence-only.  `Msg::SetUsername` is declared with a
`String` payload in the enum but every use site — the match arm at line 182
and both callbacks in `view` — treats it as payload-free, so the model
makes it payload-free. -/
inductive Msg where
  | Connect
  | SetWsWrite (w : Option Unit)
  | SetWsRead (r : Option Unit)
  | WsReadTaskStarted
  | ConnectionFailed
  | MessageReceived (m : ChatMessage)
  | UpdateInput (s : String)
  | SendMessage
  | SetUsername
  | UpdateUsernameInput (s : String)
  | Error (s : String)
deriving Repr, DecidableEq

/-- Background work started by `update` via `spawn_local`:  the connect
attempt (line 64), the read-loop task (line 87), and one fire-and-forget
send of an encoded frame (line 159). -/
inductive Effect where
  | spawnConnect
  | spawnReadLoop
  | spawnSend (frame : String)
deriving Repr, DecidableEq

/-- The `Msg::SendMessage` error string (line 174). -/
def notConnectedMsg : String := "Tidak terhubung ke server WebSocket."

/-- The post-loop disconnect notice of the read task (line 119). -/
def disconnectMsg : String := "Koneksi WebSocket terputus."

/-- The binary-frame error string (line 103). -/
def binaryMsg : String := "Menerima pesan biner, tidak didukung."

/-- `App::update` (lines 60-195): one event applied to the state, returning
the new state, the spawned background work, and the re-render flag.
`serde_json::to_string` cannot fail on `ChatMessage` (plain strings and an
option of a string), so the `Err` arm at line 167 is dead and the model
takes the `Ok` branch. -/
def update (s : App) : Msg → App × List Effect × Bool
  | Msg.Connect => (s, [Effect.spawnConnect], false)
  | Msg.SetWsWrite w =>
    ({ s with ws_write := w, is_connected := w.isSome, error := none },
      [], true)
  | Msg.SetWsRead (some _) => (s, [Effect.spawnReadLoop], false)
  | Msg.SetWsRead none => (s, [], false)
  | Msg.WsReadTaskStarted => (s, [], false)
  | Msg.ConnectionFailed =>
    ({ s with is_connected := false, ws_write := none }, [], true)
  | Msg.MessageReceived m =>
    ({ s with messages := s.messages ++ [m] }, [], true)
  | Msg.UpdateInput i => ({ s with current_input := i }, [], false)
  | Msg.SendMessage =>
    match s.ws_write with
    | some _ =>
      if s.current_input = "" then (s, [], true)
      else
        ({ s with current_input := "" },
          [Effect.spawnSend
            (encodeChatString ⟨s.username, s.current_input, none⟩)], true)
    | none => ({ s with error := some notConnectedMsg }, [], true)
  | Msg.SetUsername =>
    (if s.username_input = "" then s
     else { s with username := s.username_input, username_input := "" },
      [], true)
  | Msg.UpdateUsernameInput i => ({ s with username_input := i }, [], false)
  | Msg.Error e => ({ s with error := some e }, [], true)

/-- The state after one event. -/
def step (s : App) (m : Msg) : App := (update s m).1

/-- The background work one event spawns. -/
def emits (s : App) (m : Msg) : List Effect := (update s m).2.1

/-- The state produced by `App::create` (lines 47-58). -/
def initApp : App :=
  { username := "Anonim"
    username_input := ""
    ws_write := none
    messages := []
    current_input := ""
    error := none
    is_connected := false }

/-- States reachable from `App::create` by handling any sequence of
events. -/
inductive Reachable : App → Prop where
  | init : Reachable initApp
  | next (s : App) (m : Msg) : Reachable s → Reachable (step s m)

/-- Apply a list of events in order (the dispatcher's serialized
processing). -/
def dispatchList (s : App) (ms : List Msg) : App := ms.foldl step s

/-! ## The read-loop task

`Msg::SetWsRead(Some(...))` spawns a task (lines 87-121) that first sends
`WsReadTaskStarted`, then folds over the inbound frame results, and after
the loop — reached both by stream exhaustion and by the `break` in the
error arm — sends a disconnect notice followed by `ConnectionFailed`. -/

/-- The transport error cases of `gloo_net`'s `WebSocketError` as
distinguished by the match at lines 106-111. -/
inductive WsError where
  | connectionError
  | connectionClose (code : Nat) (reason : String)
  | messageSendError
  | other
deriving Repr, DecidableEq

/-- The human-readable message built for a transport error
(lines 106-111; the close case interpolates the code and reason). -/
def wsErrorMessage : WsError → String
  | WsError.connectionError => "Koneksi WebSocket error."
  | WsError.connectionClose code reason =>
    "Koneksi WebSocket ditutup: code=" ++ toString code
      ++ ", reason=" ++ reason
  | WsError.messageSendError => "Error mengirim pesan WebSocket."
  | WsError.other => "Error WebSocket tidak diketahui."

/-- The message built for a text frame that fails to decode (line 98;
the source interpolates `serde_json`'s error description, abstracted
here). -/
def parseErrorMessage (raw : String) : String :=
  "Gagal parse pesan server. Data: " ++ raw

/-- One inbound item of the read stream: a text frame, a binary frame, or
a transport-level error. -/
inductive FrameResult where
  | text (raw : String)
  | bytes
  | err (e : WsError)
deriving Repr, DecidableEq

/-- The events the `while let` loop (lines 90-117) sends for a frame
sequence: decoded messages or parse errors for text frames, an error for
binary frames, and — on the first transport error — an error message then
`ConnectionFailed`, after which the `break` skips every further frame. -/
def readLoopBody : List FrameResult → List Msg
  | [] => []
  | FrameResult.text raw :: rest =>
    (match decodeChatString raw with
     | some m => [Msg.MessageReceived m]
     | none => [Msg.Error (parseErrorMessage raw)]) ++ readLoopBody rest
  | FrameResult.bytes :: rest => Msg.Error binaryMsg :: readLoopBody rest
  | FrameResult.err e :: _ =>
    [Msg.Error (wsErrorMessage e), Msg.ConnectionFailed]

/-- Every event the read task sends over its lifetime: the start
confirmation, the loop's events, and the post-loop disconnect notice and
`ConnectionFailed` (lines 119-120), which run on both exit paths. -/
def readLoopEmits (frames : List FrameResult) : List Msg :=
  Msg.WsReadTaskStarted :: readLoopBody frames
    ++ [Msg.Error disconnectMsg, Msg.ConnectionFailed]

/-- Recognizes the `ConnectionFailed` event. -/
def isConnFailed : Msg → Bool
  | Msg.ConnectionFailed => true
  | _ => false

/-- Recognizes a transport-error frame. -/
def isErrFrame : FrameResult → Bool
  | FrameResult.err _ => true
  | _ => false

/-- Number of `ConnectionFailed` events in a list. -/
def connLostCount (l : List Msg) : Nat := l.countP isConnFailed

/-! ## Codec lemmas -/

theorem string_mk_data (s : String) : String.mk s.data = s := by
  cases s; rfl

theorem skipWs_cons_of_not (c : Char) (l : List Char) (h : isWs c = false) :
    skipWs (c :: l) = c :: l := by
  simp [skipWs, List.dropWhile_cons, h]

theorem jquote_append (s : String) (l : List Char) :
    jquote s ++ l = '"' :: ((s.data.map escapeChar).flatten ++ '"' :: l) := by
  simp [jquote]

theorem parseHex_hexDigit (n : Nat) (h : n < 16) :
    parseHex (hexDigit n) = some n := by
  interval_cases n <;> decide

theorem char_eq_of_toNat (c d : Char) (n : Nat) (h : c.toNat = n)
    (hd : d.toNat = n) : c = d := by
  have h1 := Char.ofNat_toNat c
  have h2 := Char.ofNat_toNat d
  rw [h] at h1
  rw [hd] at h2
  rw [← h1, h2]

theorem parseStringBody_escapeChar (c : Char) (l acc : List Char) :
    parseStringBody (escapeChar c ++ l) acc = parseStringBody l (acc ++ [c]) := by
  by_cases h1 : c = '"'
  · subst h1
    rw [show escapeChar '"' = ['\\', '"'] from rfl]
    rw [parseStringBody.eq_def]; simp
  by_cases h2 : c = '\\'
  · subst h2
    rw [show escapeChar '\\' = ['\\', '\\'] from rfl]
    rw [parseStringBody.eq_def]; simp
  by_cases h3 : c.toNat = 8
  · have hc : c = Char.ofNat 8 := by rw [← h3, Char.ofNat_toNat]
    have hesc : escapeChar c = ['\\', 'b'] := by simp [escapeChar, h1, h2, h3]
    rw [hesc, parseStringBody.eq_def]; simp [hc]
  by_cases h4 : c.toNat = 9
  · have hc : c = '\t' := char_eq_of_toNat c '\t' 9 h4 rfl
    have hesc : escapeChar c = ['\\', 't'] := by
      simp [escapeChar, h1, h2, h3, h4]
    rw [hesc, parseStringBody.eq_def]; simp [hc]
  by_cases h5 : c.toNat = 10
  · have hc : c = '\n' := char_eq_of_toNat c '\n' 10 h5 rfl
    have hesc : escapeChar c = ['\\', 'n'] := by
      simp [escapeChar, h1, h2, h3, h4, h5]
    rw [hesc, parseStringBody.eq_def]; simp [hc]
  by_cases h6 : c.toNat = 12
  · have hc : c = Char.ofNat 12 := by rw [← h6, Char.ofNat_toNat]
    have hesc : escapeChar c = ['\\', 'f'] := by
      simp [escapeChar, h1, h2, h3, h4, h5, h6]
    rw [hesc, parseStringBody.eq_def]; simp [hc]
  by_cases h7 : c.toNat = 13
  · have hc : c = '\r' := char_eq_of_toNat c '\r' 13 h7 rfl
    have hesc : escapeChar c = ['\\', 'r'] := by
      simp [escapeChar, h1, h2, h3, h4, h5, h6, h7]
    rw [hesc, parseStringBody.eq_def]; simp [hc]
  by_cases h8 : c.toNat < 32
  · have hdl : c.toNat / 16 < 16 := by omega
    have hml : c.toNat % 16 < 16 := Nat.mod_lt _ (by norm_num)
    have e1 := parseHex_hexDigit (c.toNat / 16) hdl
    have e2 := parseHex_hexDigit (c.toNat % 16) hml
    have hesc : escapeChar c = ['\\', 'u', '0', '0',
        hexDigit (c.toNat / 16), hexDigit (c.toNat % 16)] := by
      simp [escapeChar, h1, h2, h3, h4, h5, h6, h7, h8]
    have hsum : 16 * (c.toNat / 16) + c.toNat % 16 = c.toNat := by
      have := Nat.div_add_mod c.toNat 16
      omega
    rw [hesc, parseStringBody.eq_def]
    simp only [List.cons_append, List.nil_append]
    rw [show parseHex '0' = some 0 from rfl, e1, e2]
    simp [hsum, Char.ofNat_toNat, show c.toNat < 55296 by omega]
  · have hesc : escapeChar c = [c] := by
      simp [escapeChar, h1, h2, h3, h4, h5, h6, h7, h8]
    rw [hesc, parseStringBody.eq_def]
    simp [h1, h2, h8]

theorem parseStringBody_flatten (s : List Char) (rest acc : List Char) :
    parseStringBody ((s.map escapeChar).flatten ++ '"' :: rest) acc
      = some (String.mk (acc ++ s), rest) := by
  induction s generalizing acc with
  | nil =>
    simp only [List.map_nil, List.flatten_nil, List.nil_append]
    rw [parseStringBody.eq_def]; simp
  | cons c cs ih =>
    simp only [List.map_cons, List.flatten_cons, List.append_assoc]
    rw [parseStringBody_escapeChar, ih]
    simp

theorem parseStringBody_jquote_tail (s : String) (rest : List Char) :
    parseStringBody ((s.data.map escapeChar).flatten ++ '"' :: rest) []
      = some (s, rest) := by
  rw [parseStringBody_flatten]
  simp [string_mk_data]

theorem parseValue_jquote (s : String) (l : List Char) :
    parseValue (jquote s ++ l) = some (JVal.vstr s, l) := by
  rw [jquote_append]
  rw [parseValue.eq_def]
  rw [skipWs_cons_of_not '"' _ (by decide)]
  simp [parseStringBody_jquote_tail]

theorem parseValue_null (l : List Char) :
    parseValue ('n' :: 'u' :: 'l' :: 'l' :: l) = some (JVal.vnull, l) := rfl

theorem parseMembers_member_vstr (fuel : Nat) (key val : String)
    (tail : List Char) (un tx : Option String) (tsS : Bool)
    (tsV : Option String) :
    parseMembers (fuel + 1) (jquote key ++ ':' :: (jquote val ++ tail))
        un tx tsS tsV =
      match applyField key (JVal.vstr val) un tx tsS tsV with
      | none => none
      | some (un2, tx2, tsS2, tsV2) =>
        match skipWs tail with
        | ',' :: r5 => parseMembers fuel r5 un2 tx2 tsS2 tsV2
        | d :: r5 =>
          if d = rbrace then
            match un2, tx2 with
            | some u, some t => some (⟨u, t, tsV2⟩, r5)
            | _, _ => none
          else none
        | [] => none := by
  rw [jquote_append]
  simp only [parseMembers]
  rw [skipWs_cons_of_not '"' _ (by decide)]
  simp only [parseStringBody_jquote_tail]
  rw [skipWs_cons_of_not ':' _ (by decide)]
  simp only [parseValue_jquote]
  simp

theorem parseMembers_member_null (fuel : Nat) (key : String)
    (tail : List Char) (un tx : Option String) (tsS : Bool)
    (tsV : Option String) :
    parseMembers (fuel + 1)
        (jquote key ++ ':' :: 'n' :: 'u' :: 'l' :: 'l' :: tail) un tx tsS tsV =
      match applyField key JVal.vnull un tx tsS tsV with
      | none => none
      | some (un2, tx2, tsS2, tsV2) =>
        match skipWs tail with
        | ',' :: r5 => parseMembers fuel r5 un2 tx2 tsS2 tsV2
        | d :: r5 =>
          if d = rbrace then
            match un2, tx2 with
            | some u, some t => some (⟨u, t, tsV2⟩, r5)
            | _, _ => none
          else none
        | [] => none := by
  rw [jquote_append]
  simp only [parseMembers]
  rw [skipWs_cons_of_not '"' _ (by decide)]
  simp only [parseStringBody_jquote_tail]
  rw [skipWs_cons_of_not ':' _ (by decide)]
  simp only [parseValue_null]
  simp

theorem applyField_username_eval (s : String) (tx : Option String)
    (tsS : Bool) (tsV : Option String) :
    applyField "username" (JVal.vstr s) none tx tsS tsV
      = some (some s, tx, tsS, tsV) := rfl

theorem applyField_text_eval (s : String) (un : Option String)
    (tsS : Bool) (tsV : Option String) :
    applyField "text" (JVal.vstr s) un none tsS tsV
      = some (un, some s, tsS, tsV) := rfl

theorem applyField_ts_some_eval (s : String) (un tx : Option String) :
    applyField "timestamp" (JVal.vstr s) un tx false none
      = some (un, tx, true, some s) := rfl

theorem applyField_ts_null_eval (un tx : Option String) :
    applyField "timestamp" JVal.vnull un tx false none
      = some (un, tx, true, none) := rfl

theorem three_le_jquote_len (s : String) (l : List Char) :
    3 ≤ (jquote s ++ l).length + 1 := by
  simp [jquote]
  omega

theorem decodeChatList_lbrace (R : List Char) :
    decodeChatList (lbrace :: R) =
      match parseMembers (R.length + 1) R none none false none with
      | some (m, rest) => if skipWs rest = [] then some m else none
      | none => none := by
  simp only [decodeChatList]
  rw [skipWs_cons_of_not lbrace _ (by decide)]
  simp

theorem parseMembers_three_none (fuel : Nat) (h : 3 ≤ fuel) (u t : String) :
    parseMembers fuel
      (jquote "username" ++ ':' :: (jquote u
        ++ ',' :: (jquote "text" ++ ':' :: (jquote t
        ++ ',' :: (jquote "timestamp"
        ++ ':' :: 'n' :: 'u' :: 'l' :: 'l' :: [rbrace])))))
      none none false none = some (⟨u, t, none⟩, []) := by
  obtain ⟨k, rfl⟩ : ∃ k, fuel = k + 3 := ⟨fuel - 3, by omega⟩
  rw [show k + 3 = (k + 2) + 1 from rfl, parseMembers_member_vstr]
  rw [applyField_username_eval]
  rw [skipWs_cons_of_not ',' _ (by decide)]
  simp only []
  rw [parseMembers_member_vstr]
  rw [applyField_text_eval]
  rw [skipWs_cons_of_not ',' _ (by decide)]
  simp only []
  rw [parseMembers_member_null]
  rw [applyField_ts_null_eval]
  rw [skipWs_cons_of_not rbrace _ (by decide)]
  simp [rbrace]

theorem parseMembers_three_some (fuel : Nat) (h : 3 ≤ fuel) (u t v : String) :
    parseMembers fuel
      (jquote "username" ++ ':' :: (jquote u
        ++ ',' :: (jquote "text" ++ ':' :: (jquote t
        ++ ',' :: (jquote "timestamp" ++ ':' :: (jquote v ++ [rbrace]))))))
      none none false none = some (⟨u, t, some v⟩, []) := by
  obtain ⟨k, rfl⟩ : ∃ k, fuel = k + 3 := ⟨fuel - 3, by omega⟩
  rw [show k + 3 = (k + 2) + 1 from rfl, parseMembers_member_vstr]
  rw [applyField_username_eval]
  rw [skipWs_cons_of_not ',' _ (by decide)]
  simp only []
  rw [parseMembers_member_vstr]
  rw [applyField_text_eval]
  rw [skipWs_cons_of_not ',' _ (by decide)]
  simp only []
  rw [parseMembers_member_vstr]
  rw [applyField_ts_some_eval]
  rw [skipWs_cons_of_not rbrace _ (by decide)]
  simp [rbrace]

theorem decode_encode_chat (m : ChatMessage) :
    decodeChatString (encodeChatString m) = some m := by
  obtain ⟨u, t, ts⟩ := m
  show decodeChatList (encodeChatList ⟨u, t, ts⟩) = some ⟨u, t, ts⟩
  rcases ts with _ | v
  · rw [show encodeChatList ⟨u, t, none⟩
        = lbrace :: (jquote "username" ++ ':' :: (jquote u
          ++ ',' :: (jquote "text" ++ ':' :: (jquote t
          ++ ',' :: (jquote "timestamp"
          ++ ':' :: 'n' :: 'u' :: 'l' :: 'l' :: [rbrace])))))
      from by simp [encodeChatList]]
    rw [decodeChatList_lbrace]
    rw [parseMembers_three_none _ (three_le_jquote_len _ _)]
    simp [skipWs]
  · rw [show encodeChatList ⟨u, t, some v⟩
        = lbrace :: (jquote "username" ++ ':' :: (jquote u
          ++ ',' :: (jquote "text" ++ ':' :: (jquote t
          ++ ',' :: (jquote "timestamp" ++ ':' :: (jquote v ++ [rbrace]))))))
      from by simp [encodeChatList]]
    rw [decodeChatList_lbrace]
    rw [parseMembers_three_some _ (three_le_jquote_len _ _)]
    simp [skipWs]

/-! ## Read-loop lemmas -/

theorem readLoopBody_countP (frames : List FrameResult) :
    (readLoopBody frames).countP isConnFailed
      = if frames.any isErrFrame then 1 else 0 := by
  induction frames with
  | nil => simp [readLoopBody]
  | cons f rest ih =>
    cases f with
    | text raw =>
      cases hd : decodeChatString raw <;>
        simp [readLoopBody, hd, List.countP_cons, isConnFailed, isErrFrame, ih]
    | bytes =>
      simp [readLoopBody, List.countP_cons, isConnFailed, isErrFrame, ih]
    | err e =>
      simp [readLoopBody, List.countP_cons, isConnFailed, isErrFrame]

theorem readLoopEmits_countP (frames : List FrameResult) :
    connLostCount (readLoopEmits frames)
      = if frames.any isErrFrame then 2 else 1 := by
  simp [connLostCount, readLoopEmits, List.countP_cons, List.countP_append,
    isConnFailed, readLoopBody_countP]
  split <;> simp

theorem readLoopEmits_getLast (frames : List FrameResult) :
    (readLoopEmits frames).getLast? = some Msg.ConnectionFailed := by
  have h : readLoopEmits frames
      = (Msg.WsReadTaskStarted :: (readLoopBody frames
          ++ [Msg.Error disconnectMsg])) ++ [Msg.ConnectionFailed] := by
    simp [readLoopEmits]
  rw [h, List.getLast?_concat]

theorem readLoopBody_stops (pre : List FrameResult) (e : WsError)
    (post : List FrameResult) :
    readLoopBody (pre ++ FrameResult.err e :: post)
      = readLoopBody (pre ++ [FrameResult.err e]) := by
  induction pre with
  | nil => simp [readLoopBody]
  | cons f pre ih => cases f <;> simp [readLoopBody, ih]

/-! ## Claims -/

/-- Claim C1: for every reachable client state, `is_connected` (the model
of `status == Connected`) holds exactly when the send capability
`ws_write` is present, and every event handled by `update` preserves this
equivalence. -/
theorem connected_iff_ws_write :
    (∀ s : App, Reachable s →
      (s.is_connected = true ↔ s.ws_write.isSome = true))
    ∧ ∀ (s : App) (m : Msg),
      (s.is_connected = true ↔ s.ws_write.isSome = true) →
      ((step s m).is_connected = true ↔ (step s m).ws_write.isSome = true) := by
  have hstep : ∀ (s : App) (m : Msg),
      (s.is_connected = true ↔ s.ws_write.isSome = true) →
      ((step s m).is_connected = true ↔ (step s m).ws_write.isSome = true) := by
    intro s m h
    cases m with
    | SetWsRead r => cases r <;> simpa [step, update] using h
    | SendMessage =>
      cases hw : s.ws_write with
      | none => simpa [step, update, hw] using h
      | some w =>
        by_cases hi : s.current_input = "" <;>
          simpa [step, update, hw, hi] using h
    | SetUsername =>
      by_cases hu : s.username_input = "" <;>
        simpa [step, update, hu] using h
    | SetWsWrite w => simp [step, update]
    | ConnectionFailed => simp [step, update]
    | _ => simpa [step, update] using h
  refine ⟨?_, hstep⟩
  intro s h
  induction h with
  | init => simp [initApp]
  | next s' m _ ih => exact hstep s' m ih

/-- Witness for C1: the equivalence holds at the initial state, and is
preserved by a concrete step from it. -/
theorem connected_iff_ws_write_witness :
    (initApp.is_connected = true ↔ initApp.ws_write.isSome = true)
    ∧ ((step initApp Msg.ConnectionFailed).is_connected = true
        ↔ (step initApp Msg.ConnectionFailed).ws_write.isSome = true) :=
  ⟨connected_iff_ws_write.1 initApp Reachable.init,
    connected_iff_ws_write.2 initApp Msg.ConnectionFailed (by decide)⟩

/-- Counterexample to claim C2 as stated: in a connected state whose
pending input is empty, `Msg::SendMessage` does not set `last_error` to
the not-connected message — the handler silently does nothing (lines
143-144 guard the whole body, the `else` at line 173 only covers the
missing-capability case). -/
theorem sendMessage_claim_counterexample :
    ¬ ((step (App.mk "Anonim" "" (some ()) [] "" none true)
        Msg.SendMessage).error = some notConnectedMsg) := by
  decide

/-- Claim C2 (amended): `Msg::SendMessage` sets `last_error` to the
not-connected message (and changes nothing else) when no send capability
is held; when a capability is held but the pending input is empty it
leaves the state unchanged (no error is recorded); and when a capability
is held and the input is non-empty it builds
`ChatMessage{username, text: input, timestamp: None}`, clears the pending
input, and dispatches the asynchronous send of its encoding. -/
theorem sendMessage_spec (s : App) :
    (s.ws_write = none →
      update s Msg.SendMessage
        = ({ s with error := some notConnectedMsg }, [], true))
    ∧ (s.ws_write.isSome = true → s.current_input = "" →
      update s Msg.SendMessage = (s, [], true))
    ∧ (s.ws_write.isSome = true → s.current_input ≠ "" →
      update s Msg.SendMessage
        = ({ s with current_input := "" },
          [Effect.spawnSend
            (encodeChatString ⟨s.username, s.current_input, none⟩)], true)) := by
  refine ⟨fun h => by simp [update, h], fun h hi => ?_, fun h hi => ?_⟩
  · cases hw : s.ws_write with
    | none => rw [hw] at h; simp at h
    | some w => simp [update, hw, hi]
  · cases hw : s.ws_write with
    | none => rw [hw] at h; simp at h
    | some w => simp [update, hw, hi]

/-- Witness for C2 (amended): concrete runs of the three cases. -/
theorem sendMessage_spec_witness :
    update (App.mk "alice" "" none [] "hi" none false) Msg.SendMessage
      = (App.mk "alice" "" none [] "hi" (some notConnectedMsg) false, [], true)
    ∧ update (App.mk "alice" "" (some ()) [] "" none true) Msg.SendMessage
      = (App.mk "alice" "" (some ()) [] "" none true, [], true)
    ∧ update (App.mk "alice" "" (some ()) [] "hi" none true) Msg.SendMessage
      = (App.mk "alice" "" (some ()) [] "" none true,
        [Effect.spawnSend (encodeChatString ⟨"alice", "hi", none⟩)], true) :=
  ⟨(sendMessage_spec _).1 rfl,
    (sendMessage_spec _).2.1 rfl rfl,
    (sendMessage_spec _).2.2 rfl (by decide)⟩

/-- Counterexample to claim C3 as stated: on a transport error the read
task emits `ConnectionFailed` twice, not at most once — the error arm
sends it (line 113) and then `break`s into the post-loop epilogue
(lines 119-120), which sends it again. -/
theorem readLoop_claim_counterexample :
    ¬ (connLostCount (readLoopEmits [FrameResult.err WsError.connectionError])
        ≤ 1) := by
  decide

/-- Claim C3 (amended): over one run of the read task, the number of
`ConnectionFailed` events is exactly two when the frame sequence contains
a transport error and exactly one on clean exhaustion (so at most two,
never more); the final event of the run is always `ConnectionFailed`; the
loop never resumes after a transport error (frames after the first error
are ignored); and on a transport error the loop's own emission is the
error message followed by `ConnectionFailed`. -/
theorem readLoop_connLost_spec :
    (∀ frames : List FrameResult,
      connLostCount (readLoopEmits frames)
        = if frames.any isErrFrame then 2 else 1)
    ∧ (∀ frames : List FrameResult,
      (readLoopEmits frames).getLast? = some Msg.ConnectionFailed)
    ∧ (∀ (pre : List FrameResult) (e : WsError) (post : List FrameResult),
      readLoopEmits (pre ++ FrameResult.err e :: post)
        = readLoopEmits (pre ++ [FrameResult.err e]))
    ∧ ∀ (e : WsError) (rest : List FrameResult),
      readLoopBody (FrameResult.err e :: rest)
        = [Msg.Error (wsErrorMessage e), Msg.ConnectionFailed] :=
  ⟨readLoopEmits_countP, readLoopEmits_getLast,
    fun pre e post => by simp [readLoopEmits, readLoopBody_stops],
    fun e rest => rfl⟩

/-- Claim C4: a text frame whose payload fails to decode makes the read
loop emit a parse-error event and continue with the remaining frames, and
handling that event surfaces the message in `last_error` while leaving
the connection status and the message log unchanged. -/
theorem malformed_frame_spec (s : App) (raw : String)
    (h : decodeChatString raw = none) (rest : List FrameResult) :
    readLoopBody (FrameResult.text raw :: rest)
      = Msg.Error (parseErrorMessage raw) :: readLoopBody rest
    ∧ (step s (Msg.Error (parseErrorMessage raw))).is_connected
        = s.is_connected
    ∧ (step s (Msg.Error (parseErrorMessage raw))).messages = s.messages
    ∧ (step s (Msg.Error (parseErrorMessage raw))).error
        = some (parseErrorMessage raw) := by
  refine ⟨by simp [readLoopBody, h], ?_, ?_, ?_⟩ <;> simp [step, update]

/-- Witness for C4: the malformed payload from the specification. -/
theorem malformed_frame_spec_witness :
    readLoopBody [FrameResult.text "\x7bnot json"]
      = Msg.Error (parseErrorMessage "\x7bnot json") :: readLoopBody []
    ∧ (step initApp (Msg.Error (parseErrorMessage "\x7bnot json"))).is_connected
        = initApp.is_connected
    ∧ (step initApp (Msg.Error (parseErrorMessage "\x7bnot json"))).messages
        = initApp.messages
    ∧ (step initApp (Msg.Error (parseErrorMessage "\x7bnot json"))).error
        = some (parseErrorMessage "\x7bnot json") :=
  malformed_frame_spec initApp "\x7bnot json" (by decide) []

/-- Claim C5: from a connected state, `Msg::ConnectionFailed` moves the
client to disconnected, drops the send capability, and leaves the message
log untouched; and the log survives a subsequent successful reconnect
(`Connect` followed by the connect task's `SetWsWrite`/`SetWsRead`
results) back to connected. -/
theorem connectionLost_spec (s : App) (_hconn : s.is_connected = true) :
    (step s Msg.ConnectionFailed).is_connected = false
    ∧ (step s Msg.ConnectionFailed).ws_write = none
    ∧ (step s Msg.ConnectionFailed).messages = s.messages
    ∧ (dispatchList (step s Msg.ConnectionFailed)
        [Msg.Connect, Msg.SetWsWrite (some ()), Msg.SetWsRead (some ())]).messages
        = s.messages
    ∧ (dispatchList (step s Msg.ConnectionFailed)
        [Msg.Connect, Msg.SetWsWrite (some ()),
          Msg.SetWsRead (some ())]).is_connected = true := by
  refine ⟨?_, ?_, ?_, ?_, ?_⟩ <;> simp [step, update, dispatchList]

/-- Witness for C5: a concrete connected state. -/
theorem connectionLost_spec_witness :
    (step (App.mk "Anonim" "" (some ()) [] "" none true)
        Msg.ConnectionFailed).is_connected = false
    ∧ (step (App.mk "Anonim" "" (some ()) [] "" none true)
        Msg.ConnectionFailed).ws_write = none
    ∧ (step (App.mk "Anonim" "" (some ()) [] "" none true)
        Msg.ConnectionFailed).messages
        = (App.mk "Anonim" "" (some ()) [] "" none true).messages
    ∧ (dispatchList (step (App.mk "Anonim" "" (some ()) [] "" none true)
          Msg.ConnectionFailed)
        [Msg.Connect, Msg.SetWsWrite (some ()), Msg.SetWsRead (some ())]).messages
        = (App.mk "Anonim" "" (some ()) [] "" none true).messages
    ∧ (dispatchList (step (App.mk "Anonim" "" (some ()) [] "" none true)
          Msg.ConnectionFailed)
        [Msg.Connect, Msg.SetWsWrite (some ()),
          Msg.SetWsRead (some ())]).is_connected = true :=
  connectionLost_spec (App.mk "Anonim" "" (some ()) [] "" none true) rfl

/-- Claim C6: decoding the encoding of any `ChatMessage` (the
`serde_json` round trip) returns a structurally equal message; the
optional `timestamp` is preserved whether present or absent. -/
theorem codec_round_trip (m : ChatMessage) :
    decodeChatString (encodeChatString m) = some m :=
  decode_encode_chat m

/-- Claim C7: two `MessageReceived` events handled in arrival order put
the first message before the second in the log, and each such event
appends exactly one message at the end. -/
theorem message_order_spec :
    (∀ (s : App) (A B : ChatMessage),
      (step (step s (Msg.MessageReceived A)) (Msg.MessageReceived B)).messages
        = s.messages ++ [A, B])
    ∧ ∀ (s : App) (m : ChatMessage),
      (step s (Msg.MessageReceived m)).messages = s.messages ++ [m] := by
  constructor <;> intro s <;> intros <;> simp [step, update]

/-- Counterexample to claim C8 as stated: the default identity installed
by `App::create` is the string `"Anonim"` (line 50), not `"Anonymous"`. -/
theorem initApp_claim_counterexample :
    ¬ (initApp.username = "Anonymous" ∧ initApp.is_connected = false
      ∧ initApp.messages = [] ∧ initApp.error = none) := by
  decide

/-- Claim C8 (amended): the state built by `App::create` has the default
identity `"Anonim"`, is disconnected, and has an empty message log and no
error. -/
theorem initApp_spec :
    initApp.username = "Anonim" ∧ initApp.is_connected = false
    ∧ initApp.messages = [] ∧ initApp.error = none := by
  decide

/-- Claim C9: `Msg::SetUsername` with an empty pending username input
leaves the state entirely unchanged; with a non-empty input it installs
the input as the identity, clears the input, and changes nothing else. -/
theorem setUsername_spec (s : App) :
    (s.username_input = "" → step s Msg.SetUsername = s)
    ∧ (s.username_input ≠ "" → step s Msg.SetUsername
        = { s with username := s.username_input, username_input := "" }) := by
  constructor <;> intro h <;> simp [step, update, h]

/-- Witness for C9: both cases at concrete states. -/
theorem setUsername_spec_witness :
    step initApp Msg.SetUsername = initApp
    ∧ step (App.mk "Anonim" "bob" none [] "" none false) Msg.SetUsername
        = App.mk "bob" "" none [] "" none false :=
  ⟨(setUsername_spec initApp).1 rfl,
    (setUsername_spec _).2 (by decide)⟩

/-- Claim C10: a successful connection result (`Msg::SetWsWrite` with a
present capability) clears `last_error` in addition to installing the
capability and marking the client connected. -/
theorem setWsWrite_some_spec (s : App) (w : Unit) :
    (step s (Msg.SetWsWrite (some w))).error = none
    ∧ (step s (Msg.SetWsWrite (some w))).ws_write = some w
    ∧ (step s (Msg.SetWsWrite (some w))).is_connected = true := by
  refine ⟨?_, ?_, ?_⟩ <;> simp [step, update]

end WebChat
